import Mathlib

/-!
Verification of the ppersist serialization library (src/ppersist/ppersist.py)
against its natural-language specification.

The development shallow-embeds the Python module: Python values that matter to
ppersist become the inductive `PValue`; the pickle byte stream becomes `Blob`,
which records the name-to-value mapping of a well-formed pickled dict together
with the (module, name) type tags the pickle virtual machine resolves through
`Unpickler.find_class` while reconstructing it; Python exceptions become
`PyException` (exception class plus message).  File I/O is modelled by passing
the target file's content (`Option Blob`) explicitly.
-/

namespace Ppersist

/-- Numpy/pandas element dtypes, as far as ppersist distinguishes them: the code
only ever compares a dtype against `object`. -/
inductive NpDtype where
  | int32 | int64 | intc | uint8
  | float32 | float64
  | complex64 | complex128
  | boolDt
  | object_
  | other (name : String)
deriving DecidableEq, Repr

/-- A Python class, identified the way pickle identifies it: by the (module,
type-name) pair that `Unpickler.find_class` receives. -/
structure PyClassRef where
  module : String
  name : String
deriving DecidableEq, Repr

/-- Python runtime values, restricted to the shapes ppersist inspects.

`inst cls bases state` is an object whose type is a class other than the exact
builtin/numpy/pandas types carried by the remaining constructors — e.g. an
instance of a user-defined class, including a class that strictly subclasses a
builtin container (its base classes are listed in `bases`).  Python's
`type(v) == dict` style checks in `cansave` compare type objects for identity,
so such an instance never equals any of the checked types.

For `ndarray`, `series` and `frame` the element payload is kept as a list of
`PValue`: for a non-`object_` dtype the pickle stores a raw buffer (no per-cell
type tags); for dtype `object_` every cell is pickled as a full object with its
own tags.  Floats and complex components are carried as IEEE-754 bit patterns
(`Nat`), which pickle round-trips exactly; ppersist never computes with them. -/
inductive PValue where
  | none
  | bool (b : Bool)
  | int (n : Int)
  | float (bits : Nat)
  | complex (re im : Nat)
  | str (s : String)
  | npInt32 (n : Int)
  | npInt64 (n : Int)
  | npIntc (n : Int)
  | npFloat32 (bits : Nat)
  | npFloat64 (bits : Nat)
  | npComplex64 (re im : Nat)
  | npComplex128 (re im : Nat)
  | npBool (b : Bool)
  | list (xs : List PValue)
  | tuple (xs : List PValue)
  | set (xs : List PValue)
  | dict (kvs : List (PValue × PValue))
  | ndarray (dtype : NpDtype) (shape : List Nat) (elems : List PValue)
  | series (name : PValue) (dtype : NpDtype) (values : List PValue)
  | frame (cols : List (PValue × NpDtype × List PValue))
  | inst (cls : PyClassRef) (bases : List PyClassRef) (state : List PValue)
deriving Repr

/-- A Python `dict` with string keys, as `savedict` receives it: an
insertion-ordered association list with pairwise-distinct keys. -/
abbrev Dct := List (String × PValue)

/-- Python exception classes that the ppersist code paths can raise. -/
inductive PyExcClass where
  | valueError
  | keyError
  | indexError
  | attributeError
  | typeError
  | unpicklingError
deriving DecidableEq, Repr

/-- A raised Python exception: its class and its message. -/
structure PyException where
  cls : PyExcClass
  msg : String
deriving DecidableEq, Repr

/-! ## Identifier regexes

`savedict` checks keys with `re.compile('^[a-zA-Z_][a-zA-Z0-9_]*$')`;
`save` and `Saver.save` use `re.compile('^[a-zA-Z][a-zA-Z0-9_]*$')` —
note the missing underscore in the first character class.
Python's `$` (without MULTILINE) matches at the end of the string or just
before a single trailing newline, which `stripTrailingNewline` reflects. -/

def isAsciiLetter (c : Char) : Bool :=
  ('a' ≤ c && c ≤ 'z') || ('A' ≤ c && c ≤ 'Z')

def isIdentCont (c : Char) : Bool :=
  isAsciiLetter c || ('0' ≤ c && c ≤ '9') || c = '_'

/-- Python `$` also matches just before one trailing newline. -/
def stripTrailingNewline (cs : List Char) : List Char :=
  if cs.getLast? = some '\n' then cs.dropLast else cs

/-- Python `re.match` for a pattern of the form `^C₁C₂*$` with character
classes `C₁` (`first`) and `C₂` (`rest`). -/
def reFullMatch (first rest : Char → Bool) (s : String) : Bool :=
  match stripTrailingNewline s.data with
  | [] => false
  | c :: cs => first c && cs.all rest

/-- The key check in `savedict`: `^[a-zA-Z_][a-zA-Z0-9_]*$`. -/
def savedictNameOK (k : String) : Bool :=
  reFullMatch (fun c => isAsciiLetter c || c = '_') isIdentCont k

/-- The name check in `save` and `Saver.save`: `^[a-zA-Z][a-zA-Z0-9_]*$`. -/
def saveNameOK (k : String) : Bool :=
  reFullMatch isAsciiLetter isIdentCont k

/-! ## `cansave` (type classifier)

Direct translation of `cansave`.  The source tests `type(v)` for identity
against a fixed list of types; since every constructor of `PValue` other than
`inst` corresponds to exactly one such concrete type, the dispatch becomes a
pattern match.  Notable source behaviors preserved here:

* an `ndarray` matches only the `t==np.ndarray and v.dtype!=object` branch, so
  an object-dtype array falls through every branch to `return False`;
* for a `dict`, the loop `for k,v1 in v.items()` checks only the values,
  never the keys;
* for a `DataFrame`, iterating `for v1 in v` yields the column *labels*
  (pandas iteration order), so only the labels are checked;
* for a `Series`, iteration yields the element values;
* any other type (including strict subclasses of supported types, whose type
  object differs from every checked one) reaches the final `return False`. -/

mutual

def cansave : PValue → Bool
  | .none => true
  | .ndarray dtype _ _ => !(dtype = .object_)
  | .str _ => true
  | .int _ => true
  | .npInt32 _ => true
  | .npInt64 _ => true
  | .float _ => true
  | .npFloat64 _ => true
  | .npFloat32 _ => true
  | .complex _ _ => true
  | .npComplex128 _ _ => true
  | .npComplex64 _ _ => true
  | .npBool _ => true
  | .npIntc _ => true
  | .bool _ => true
  | .dict kvs => cansaveDictVals kvs
  | .list xs => cansaveList xs
  | .tuple xs => cansaveList xs
  | .set xs => cansaveList xs
  | .frame cols => cansaveFrameLabels cols
  | .series _ _ values => cansaveList values
  | .inst _ _ _ => false

def cansaveList : List PValue → Bool
  | [] => true
  | v :: vs => cansave v && cansaveList vs

def cansaveDictVals : List (PValue × PValue) → Bool
  | [] => true
  | (_, v) :: kvs => cansave v && cansaveDictVals kvs

def cansaveFrameLabels : List (PValue × NpDtype × List PValue) → Bool
  | [] => true
  | (label, _, _) :: cols => cansave label && cansaveFrameLabels cols

end

/-! ## The allow-list registry -/

/-- A pickle type tag: the (module, type-name) pair passed to `find_class`. -/
abbrev Tag := String × String

/-- The `_allowed` literal table, verbatim from the source. -/
def _allowed : List Tag := [
  ("builtins", "complex"),
  ("builtins", "set"),
  ("builtins", "frozenset"),
  ("builtins", "range"),
  ("builtins", "slice"),
  ("functools", "partial"),
  ("numpy", "ndarray"),
  ("numpy", "dtype"),
  ("numpy.core.multiarray", "scalar"),
  ("numpy.core.numeric", "_frombuffer"),
  ("numpy.core.multiarray", "_reconstruct"),
  ("pandas.core.frame", "DataFrame"),
  ("pandas.core.series", "Series"),
  ("pandas.core.indexes.base", "Index"),
  ("pandas.core.indexes.range", "RangeIndex"),
  ("pandas.core.indexes.base", "_new_Index"),
  ("pandas.core.internals.managers", "SingleBlockManager"),
  ("pandas.core.internals.managers", "BlockManager"),
  ("pandas.core.internals.blocks", "new_block"),
  ("pandas._libs.internals", "_unpickle_block")]

/-- The membership test `(module, name) in _allowed`. -/
def isAllowed (t : Tag) : Bool := _allowed.contains t

/-! ## Type tags embedded in a pickle

`pickleTags v` lists, in graph-walk order, the (module, name) pairs for which
the pickle virtual machine calls `Unpickler.find_class` while reconstructing
`v` from a `pickle.dump(..., pickle.HIGHEST_PROTOCOL)` stream:

* `None`, `bool`, `int`, `float`, `str`, and the `list`/`tuple`/`dict`/`set`
  containers have dedicated opcodes and contribute no tag of their own;
* `complex` is pickled through the `("builtins","complex")` global;
* numpy scalar types go through `numpy.core.multiarray.scalar` with a
  `numpy.dtype` argument;
* a numpy array goes through `numpy.core.multiarray._reconstruct` with the
  `numpy.ndarray` class and a `numpy.dtype`; a non-object array stores its
  data as a raw buffer, while an object array additionally pickles every
  element as a full object;
* pandas objects go through the frame/series constructors, block managers and
  index helpers; object-dtype columns additionally pickle each cell;
* any other instance is pickled by reference to its own class tag followed by
  its state. -/

def ndarrayTags : List Tag :=
  [("numpy.core.multiarray", "_reconstruct"), ("numpy", "ndarray"), ("numpy", "dtype")]

def npScalarTags : List Tag :=
  [("numpy.core.multiarray", "scalar"), ("numpy", "dtype")]

def seriesFixedTags : List Tag :=
  [("pandas.core.series", "Series"),
   ("pandas.core.internals.managers", "SingleBlockManager"),
   ("pandas._libs.internals", "_unpickle_block"),
   ("pandas.core.indexes.base", "_new_Index"),
   ("pandas.core.indexes.range", "RangeIndex")] ++ ndarrayTags

def frameFixedTags : List Tag :=
  [("pandas.core.frame", "DataFrame"),
   ("pandas.core.internals.managers", "BlockManager"),
   ("pandas._libs.internals", "_unpickle_block"),
   ("pandas.core.indexes.base", "Index"),
   ("pandas.core.indexes.base", "_new_Index"),
   ("pandas.core.indexes.range", "RangeIndex")] ++ ndarrayTags

mutual

def pickleTags : PValue → List Tag
  | .none => []
  | .bool _ => []
  | .int _ => []
  | .float _ => []
  | .str _ => []
  | .complex _ _ => [("builtins", "complex")]
  | .npInt32 _ => npScalarTags
  | .npInt64 _ => npScalarTags
  | .npIntc _ => npScalarTags
  | .npFloat32 _ => npScalarTags
  | .npFloat64 _ => npScalarTags
  | .npComplex64 _ _ => npScalarTags
  | .npComplex128 _ _ => npScalarTags
  | .npBool _ => npScalarTags
  | .list xs => pickleTagsList xs
  | .tuple xs => pickleTagsList xs
  | .set xs => pickleTagsList xs
  | .dict kvs => pickleTagsKVs kvs
  | .ndarray dtype _ elems =>
      ndarrayTags ++ (if dtype = .object_ then pickleTagsList elems else [])
  | .series name dtype values =>
      seriesFixedTags ++ pickleTags name ++
        (if dtype = .object_ then pickleTagsList values else [])
  | .frame cols => frameFixedTags ++ pickleTagsCols cols
  | .inst cls _ state => (cls.module, cls.name) :: pickleTagsList state

def pickleTagsList : List PValue → List Tag
  | [] => []
  | v :: vs => pickleTags v ++ pickleTagsList vs

def pickleTagsKVs : List (PValue × PValue) → List Tag
  | [] => []
  | (k, v) :: kvs => pickleTags k ++ pickleTags v ++ pickleTagsKVs kvs

def pickleTagsCols : List (PValue × NpDtype × List PValue) → List Tag
  | [] => []
  | (label, dtype, cells) :: cols =>
      pickleTags label ++ (if dtype = .object_ then pickleTagsList cells else []) ++
        pickleTagsCols cols

end

/-- All tags in the pickle of a saved dict: the string keys pickle natively,
so only the values contribute tags. -/
def bundleTags (dct : Dct) : List Tag :=
  match dct with
  | [] => []
  | (_, v) :: rest => pickleTags v ++ bundleTags rest

/-! ## Blobs and the two loaders -/

/-- The byte stream handed to an `Unpickler`: either the well-formed pickle of
a dict (as `pickle.dump` produces) or structurally malformed bytes. -/
inductive Blob where
  | fromDict (dct : Dct)
  | malformed (junk : String)
deriving Repr

/-- The message of the exception raised by `SafeLoader.find_class`. -/
def notAllowedMsg (module name : String) : String :=
  "Not allowed “" ++ module ++ "”: “" ++ name ++ "”"

/-- The caution line printed by `UnsafeLoader.find_class`. -/
def cautionMsg (module name : String) : String :=
  "Caution: Loading “" ++ module ++ "." ++ name ++ "” from pickle."

/-- Models CPython's pickle module: feeding structurally malformed bytes to
`Unpickler.load` raises `pickle.UnpicklingError` (e.g. with message
"invalid load key, 'x'"). -/
def corruptMsg (junk : String) : String :=
  "invalid load key, '" ++ junk.take 1 ++ "'"

/-- The exception raised at `SafeLoader.find_class` for a disallowed tag:
`pickle.UnpicklingError(f"Not allowed “{module}”: “{name}”")`. -/
def unsafeTypeError (module name : String) : PyException :=
  ⟨.unpicklingError, notAllowedMsg module name⟩

/-- `SafeLoader.find_class`: return the class for an allowed tag, raise
`pickle.UnpicklingError` otherwise. -/
def SafeLoader.find_class (module name : String) : Except PyException PyClassRef :=
  if isAllowed (module, name) then .ok ⟨module, name⟩
  else .error (unsafeTypeError module name)

/-- `UnsafeLoader.find_class`: print a caution when the tag is off-list, then
resolve the class unconditionally. -/
def UnsafeLoader.find_class (module name : String) : List String × PyClassRef :=
  (if isAllowed (module, name) then [] else [cautionMsg module name], ⟨module, name⟩)

/-- The pickle machine resolving each tag of the stream through
`SafeLoader.find_class`, aborting at the first failure. -/
def runSafeFindClass : List Tag → Except PyException Unit
  | [] => .ok ()
  | t :: ts =>
      match SafeLoader.find_class t.1 t.2 with
      | .error e => .error e
      | .ok _ => runSafeFindClass ts

/-- The cautions emitted while the pickle machine resolves each tag through
`UnsafeLoader.find_class`. -/
def runUnsafeFindClass : List Tag → List String
  | [] => []
  | t :: ts => (UnsafeLoader.find_class t.1 t.2).1 ++ runUnsafeFindClass ts

/-- `SafeLoader(fd).load()`: fail on malformed bytes; otherwise resolve every
tag of the stream through `SafeLoader.find_class` and, only if all succeed,
return the reconstructed dict. -/
def SafeLoader.load : Blob → Except PyException Dct
  | .malformed junk => .error ⟨.unpicklingError, corruptMsg junk⟩
  | .fromDict dct =>
      match runSafeFindClass (bundleTags dct) with
      | .error e => .error e
      | .ok _ => .ok dct

/-- `UnsafeLoader(fd).load()`: reconstruct any well-formed pickle, returning
the cautions printed along the way; malformed bytes still fail. -/
def UnsafeLoader.load : Blob → List String × Except PyException Dct
  | .malformed junk => ([], .error ⟨.unpicklingError, corruptMsg junk⟩)
  | .fromDict dct => (runUnsafeFindClass (bundleTags dct), .ok dct)

/-- `_load(filename, trusted)`: pick the loader by `trusted`.  The first
component collects the caution lines printed (always empty in gated mode). -/
def _load (blob : Blob) (trusted : Bool) : List String × Except PyException Dct :=
  if trusted then UnsafeLoader.load blob
  else ([], SafeLoader.load blob)

/-! ## Named-tuple projection (`_maketuple` and the local `Tuple` class) -/

/-- Python dict lookup on the association-list model: first matching key. -/
def lookupAssoc (dct : Dct) (k : String) : Option PValue :=
  match dct with
  | [] => Option.none
  | (k', v) :: rest => if k' = k then some v else lookupAssoc rest k

/-- The decoded record: the `Tuple` class `_maketuple` creates, a namedtuple
over `names` holding `values` positionally. -/
structure PTuple where
  names : List String
  values : List PValue
deriving Repr

/-- The class attribute `revmap = { name: num for num, name in enumerate(names) }`:
maps a field name to its index; for a duplicated name the comprehension keeps
the last index. -/
def PTuple.revmap (t : PTuple) (k : String) : Option Nat :=
  (t.names.enum.reverse.find? (fun p => p.2 = k)).map (fun p => p.1)

/-- Plain `tuple.__getitem__` (what `super().__getitem__(k)` runs): positional
access with Python's negative-index wrap, `IndexError` out of range. -/
def PTuple.getitemInt (t : PTuple) (k : Int) : Except PyException PValue :=
  let n : Int := t.values.length
  let i : Int := if k < 0 then k + n else k
  if 0 ≤ i && i < n then
    match t.values[i.toNat]? with
    | some v => .ok v
    | Option.none => .error ⟨.indexError, "tuple index out of range"⟩
  else .error ⟨.indexError, "tuple index out of range"⟩

/-- A key passed to `Tuple.__getitem__`: a field name or a position. -/
inductive PKey where
  | str (s : String)
  | int (i : Int)

/-- `Tuple.__getitem__` as written in the source: for a string key found in
`revmap` the body rebinds `k` to the index and then ends without a `return`
statement, so the call returns Python `None`; an unknown string raises
`KeyError(k)`; a non-string key is delegated to `tuple.__getitem__`. -/
def PTuple.getitem (t : PTuple) : PKey → Except PyException PValue
  | .str s =>
      match t.revmap s with
      | some _ => .ok PValue.none
      | Option.none => .error ⟨.keyError, s⟩
  | .int i => t.getitemInt i

/-- Attribute access on the namedtuple (`x.fieldname`): the field descriptors
`collections.namedtuple` generates fetch the element at the field's position. -/
def PTuple.attr (t : PTuple) (k : String) : Except PyException PValue :=
  match t.names.indexOf? k with
  | some i =>
      match t.values[i]? with
      | some v => .ok v
      | Option.none => .error ⟨.indexError, "tuple index out of range"⟩
  | Option.none => .error ⟨.attributeError, k⟩

/-- Extracts a Python list of strings, as `namedtuple` requires for its field
names. -/
def asNamesList : PValue → Option (List String)
  | .list xs =>
      xs.mapM (fun x =>
        match x with
        | .str s => some s
        | _ => Option.none)
  | _ => Option.none

/-- `_maketuple(dct)`: field names from `dct.get('__names__', list(dct.keys()))`;
`namedtuple` rejects non-string field names with `TypeError`; the final loop
`lst.append(dct[n])` raises `KeyError` for a name absent from the dict. -/
def _maketuple (dct : Dct) : Except PyException PTuple :=
  match
    (match lookupAssoc dct "__names__" with
     | some v =>
         (match asNamesList v with
          | some ns => Except.ok ns
          | Option.none => Except.error (⟨.typeError, "Type names and field names must be strings"⟩ : PyException))
     | Option.none => Except.ok (dct.map Prod.fst)) with
  | .error e => .error e
  | .ok names =>
      match names.mapM (fun n => lookupAssoc dct n) with
      | some values => .ok ⟨names, values⟩
      | Option.none => .error ⟨.keyError, "missing key"⟩

/-- `load(filename, trusted)`: `_load` then `_maketuple`.  The first component
carries the cautions printed during a trusted load. -/
def load (blob : Blob) (trusted : Bool) : List String × Except PyException PTuple :=
  let (cautions, r) := _load blob trusted
  (cautions,
    match r with
    | .error e => .error e
    | .ok dct => _maketuple dct)

/-! ## Encode entry points

File output is modelled by the target file's content: each entry point takes
the previous content (`Option Blob`) and returns the content after the call
together with the exception raised, if any.  In the source, `savedict`
validates every key and value before `open(filename, 'wb')`, so on a
validation failure the file is untouched. -/

/-- The validation loop of `savedict`: for each entry, first the key regex,
then `cansave`, raising `ValueError` naming the key on the first failure. -/
def validateBundle : Dct → Option PyException
  | [] => Option.none
  | (k, v) :: rest =>
      if savedictNameOK k = false then some ⟨.valueError, "Bad variable name: " ++ k⟩
      else if cansave v = false then some ⟨.valueError, "Cannot save variable: " ++ k⟩
      else validateBundle rest

/-- `savedict(filename, dct)`: validate, then `pickle.dump` the dict. -/
def savedict (dct : Dct) (file : Option Blob) : Option Blob × Option PyException :=
  match validateBundle dct with
  | some e => (file, some e)
  | Option.none => (some (Blob.fromDict dct), Option.none)

/-- `savedict_ignorewhitelist(filename, dct)`: `pickle.dump` with no checks. -/
def savedict_ignorewhitelist (dct : Dct) (file : Option Blob) :
    Option Blob × Option PyException :=
  (some (Blob.fromDict dct), Option.none)

/-- The validation loop shared by `save` and `Saver.save`: pairwise over the
names parsed from the call site and the argument values, using the
stricter `^[a-zA-Z][a-zA-Z0-9_]*$` pattern. -/
def validateSaveArgs : List String → List PValue → Option PyException
  | [], _ => Option.none
  | _, [] => Option.none
  | k :: ks, v :: vs =>
      if saveNameOK k = false then some ⟨.valueError, "Bad variable name: " ++ k⟩
      else if cansave v = false then some ⟨.valueError, "Cannot save variable: " ++ k⟩
      else validateSaveArgs ks vs

/-- Python dict assignment `d[k] = v`: update in place if the key exists
(keeping its position), else append. -/
def updateAssoc (dct : Dct) (k : String) (v : PValue) : Dct :=
  if dct.any (fun kv => kv.1 = k) then
    dct.map (fun kv => if kv.1 = k then (k, v) else kv)
  else dct ++ [(k, v)]

/-- Building `dct` by successive `dct[names[k]] = args[k]` assignments. -/
def dictFromPairs (pairs : List (String × PValue)) : Dct :=
  pairs.foldl (fun d kv => updateAssoc d kv.1 kv.2) []

/-- `save(filename, *args)` after the `inspect` step has produced the variable
names: length check, per-variable validation, then `savedict`. -/
def save (names : List String) (args : List PValue) (file : Option Blob) :
    Option Blob × Option PyException :=
  if names.length ≠ args.length then (file, some ⟨.valueError, "Bad call to SAVE"⟩)
  else
    match validateSaveArgs names args with
    | some e => (file, some e)
    | Option.none => savedict (dictFromPairs (names.zip args)) file

/-! ## The `Saver` accumulation object -/

/-- The state of a `Saver`: its target file name, the `opened` flag, and the
accumulated dict (absent before `__enter__`; modelled as `[]`, which `save`
never touches while `opened` is false). -/
structure SaverState where
  filename : String
  opened : Bool
  dct : Dct
deriving Repr

/-- `Saver.__init__`. -/
def Saver.init (filename : String) : SaverState :=
  ⟨filename, false, []⟩

/-- `Saver.__enter__`: sets `opened` and resets the accumulated dict. -/
def Saver.enter (s : SaverState) : SaverState :=
  { s with opened := true, dct := [] }

/-- `Saver.save(*args)` after the `inspect` step: guard on `opened`, length
check, per-variable validation, then accumulate into the dict. -/
def Saver.saveVars (s : SaverState) (names : List String) (args : List PValue) :
    Except PyException SaverState :=
  if s.opened = false then .error ⟨.valueError, "Cannot save without opening first"⟩
  else if names.length ≠ args.length then .error ⟨.valueError, "Bad call to SAVE"⟩
  else
    match validateSaveArgs names args with
    | some e => .error e
    | Option.none =>
        .ok { s with dct := (names.zip args).foldl (fun d kv => updateAssoc d kv.1 kv.2) s.dct }

/-- `Saver.__exit__(self, *args)`: the exception information in `*args` is
ignored; guard on `opened`, then `savedict`, then clear `opened`.  The method
body has no `return`, so it returns Python `None`: the final `Bool` component
is the truthiness of that return value (always false, i.e. the context
manager never suppresses the in-block exception). -/
def Saver.exit (s : SaverState) (excInfo : Option PyException) (file : Option Blob) :
    Except PyException (SaverState × Option Blob × Bool) :=
  if s.opened = false then .error ⟨.valueError, "Not opened"⟩
  else
    match savedict s.dct file with
    | (file', Option.none) => .ok ({ s with opened := false }, file', false)
    | (_, some e) => .error e

/-! ## The Supported Value universe of the specification -/

/-- Whether a value is a Python `str` (spec: mapping keys and column names). -/
def isStrVal : PValue → Bool
  | .str _ => true
  | _ => false

mutual

/-- Modelled from the spec: the Supported Value universe of section 3 — the
tagged union over Null; Bool; Int (32/64-bit); Float (32/64-bit); Complex;
String; NumericArray with a homogeneous non-reference element type; Table
(ordered string-named columns of non-reference element type); Series (a named
column, likewise); List/Tuple/Set of Supported Values; and Mapping of String
to Supported Value — with the section 3 invariant that composite forms may
only contain Supported Values, recursively. -/
def SupportedValue : PValue → Bool
  | .none => true
  | .bool _ => true
  | .npBool _ => true
  | .int _ => true
  | .npInt32 _ => true
  | .npInt64 _ => true
  | .npIntc _ => true
  | .float _ => true
  | .npFloat32 _ => true
  | .npFloat64 _ => true
  | .complex _ _ => true
  | .npComplex64 _ _ => true
  | .npComplex128 _ _ => true
  | .str _ => true
  | .ndarray dtype _ _ => !(dtype = .object_)
  | .list xs => supportedList xs
  | .tuple xs => supportedList xs
  | .set xs => supportedList xs
  | .dict kvs => supportedKVs kvs
  | .series name dtype values =>
      SupportedValue name && !(dtype = .object_) && supportedList values
  | .frame cols => supportedCols cols
  | .inst _ _ _ => false

def supportedList : List PValue → Bool
  | [] => true
  | v :: vs => SupportedValue v && supportedList vs

def supportedKVs : List (PValue × PValue) → Bool
  | [] => true
  | (k, v) :: kvs => isStrVal k && SupportedValue v && supportedKVs kvs

def supportedCols : List (PValue × NpDtype × List PValue) → Bool
  | [] => true
  | (label, dtype, cells) :: cols =>
      isStrVal label && !(dtype = .object_) && supportedList cells && supportedCols cols

end

/-! ## Helper lemmas -/

/-- The first tag of a stream that the allow-list blocks. -/
def firstBlocked (ts : List Tag) : Option Tag :=
  ts.find? (fun t => !(isAllowed t))

/-- Whether a `Saver.save` call succeeded. -/
def saverCallOK : Except PyException SaverState → Bool
  | .ok _ => true
  | .error _ => false

theorem cansave_of_isStr (v : PValue) (h : isStrVal v = true) : cansave v = true := by
  cases v <;> first | rfl | simp [isStrVal] at h

theorem pickleTags_of_isStr (v : PValue) (h : isStrVal v = true) : pickleTags v = [] := by
  cases v <;> first | rfl | simp [isStrVal] at h

mutual

theorem supported_cansave : ∀ v, SupportedValue v = true → cansave v = true
  | .none, _ => rfl
  | .bool _, _ => rfl
  | .npBool _, _ => rfl
  | .int _, _ => rfl
  | .npInt32 _, _ => rfl
  | .npInt64 _, _ => rfl
  | .npIntc _, _ => rfl
  | .float _, _ => rfl
  | .npFloat32 _, _ => rfl
  | .npFloat64 _, _ => rfl
  | .complex _ _, _ => rfl
  | .npComplex64 _ _, _ => rfl
  | .npComplex128 _ _, _ => rfl
  | .str _, _ => rfl
  | .ndarray _ _ _, h => h
  | .list xs, h => supported_cansaveList xs h
  | .tuple xs, h => supported_cansaveList xs h
  | .set xs, h => supported_cansaveList xs h
  | .dict kvs, h => supported_cansaveKVs kvs h
  | .series name dtype values, h => by
      have h' : ((SupportedValue name && !(dtype = .object_)) && supportedList values) = true := h
      simp only [Bool.and_eq_true] at h'
      exact supported_cansaveList values h'.2
  | .frame cols, h => supported_cansaveCols cols h
  | .inst _ _ _, h => nomatch h

theorem supported_cansaveList : ∀ xs, supportedList xs = true → cansaveList xs = true
  | [], _ => rfl
  | v :: vs, h => by
      have h' : (SupportedValue v && supportedList vs) = true := h
      simp only [Bool.and_eq_true] at h'
      have g1 := supported_cansave v h'.1
      have g2 := supported_cansaveList vs h'.2
      show (cansave v && cansaveList vs) = true
      rw [g1, g2]
      rfl

theorem supported_cansaveKVs : ∀ kvs, supportedKVs kvs = true → cansaveDictVals kvs = true
  | [], _ => rfl
  | (k, v) :: kvs, h => by
      have h' : ((isStrVal k && SupportedValue v) && supportedKVs kvs) = true := h
      simp only [Bool.and_eq_true] at h'
      have g1 := supported_cansave v h'.1.2
      have g2 := supported_cansaveKVs kvs h'.2
      show (cansave v && cansaveDictVals kvs) = true
      rw [g1, g2]
      rfl

theorem supported_cansaveCols : ∀ cols, supportedCols cols = true → cansaveFrameLabels cols = true
  | [], _ => rfl
  | (label, dtype, cells) :: cols, h => by
      have h' : (((isStrVal label && !(dtype = .object_)) && supportedList cells) && supportedCols cols) = true := h
      simp only [Bool.and_eq_true] at h'
      have g1 := cansave_of_isStr label h'.1.1.1
      have g2 := supported_cansaveCols cols h'.2
      show (cansave label && cansaveFrameLabels cols) = true
      rw [g1, g2]
      rfl

end

theorem npScalarTags_allowed : ∀ t ∈ npScalarTags, isAllowed t = true := by decide

theorem ndarrayTags_allowed : ∀ t ∈ ndarrayTags, isAllowed t = true := by decide

theorem seriesFixedTags_allowed : ∀ t ∈ seriesFixedTags, isAllowed t = true := by decide

theorem frameFixedTags_allowed : ∀ t ∈ frameFixedTags, isAllowed t = true := by decide

mutual

theorem supported_tags_allowed : ∀ v, SupportedValue v = true →
    ∀ t ∈ pickleTags v, isAllowed t = true
  | .none, _ => by intro t ht; exact absurd ht (List.not_mem_nil t)
  | .bool _, _ => by intro t ht; exact absurd ht (List.not_mem_nil t)
  | .npBool _, _ => fun t ht => npScalarTags_allowed t ht
  | .int _, _ => by intro t ht; exact absurd ht (List.not_mem_nil t)
  | .npInt32 _, _ => fun t ht => npScalarTags_allowed t ht
  | .npInt64 _, _ => fun t ht => npScalarTags_allowed t ht
  | .npIntc _, _ => fun t ht => npScalarTags_allowed t ht
  | .float _, _ => by intro t ht; exact absurd ht (List.not_mem_nil t)
  | .npFloat32 _, _ => fun t ht => npScalarTags_allowed t ht
  | .npFloat64 _, _ => fun t ht => npScalarTags_allowed t ht
  | .complex _ _, _ => by
      intro t ht
      have ht' : t ∈ [(("builtins" : String), ("complex" : String))] := ht
      rw [List.mem_singleton] at ht'
      subst ht'
      decide
  | .npComplex64 _ _, _ => fun t ht => npScalarTags_allowed t ht
  | .npComplex128 _ _, _ => fun t ht => npScalarTags_allowed t ht
  | .str _, _ => by intro t ht; exact absurd ht (List.not_mem_nil t)
  | .ndarray dtype shape elems, h => by
      intro t ht
      have hd : ¬(dtype = .object_) := by
        have h' : (!(decide (dtype = NpDtype.object_))) = true := h
        simpa using h'
      have ht' : t ∈ ndarrayTags ++ (if dtype = .object_ then pickleTagsList elems else []) := ht
      rw [if_neg hd, List.append_nil] at ht'
      exact ndarrayTags_allowed t ht'
  | .list xs, h => supported_tags_allowedList xs h
  | .tuple xs, h => supported_tags_allowedList xs h
  | .set xs, h => supported_tags_allowedList xs h
  | .dict kvs, h => supported_tags_allowedKVs kvs h
  | .series name dtype values, h => by
      have h' : ((SupportedValue name && !(dtype = .object_)) && supportedList values) = true := h
      simp only [Bool.and_eq_true] at h'
      have hd : ¬(dtype = .object_) := by simpa using h'.1.2
      intro t ht
      have ht' : t ∈ seriesFixedTags ++ pickleTags name ++
          (if dtype = .object_ then pickleTagsList values else []) := ht
      rw [if_neg hd, List.append_nil] at ht'
      rcases List.mem_append.mp ht' with h1 | h1
      · exact seriesFixedTags_allowed t h1
      · exact supported_tags_allowed name h'.1.1 t h1
  | .frame cols, h => by
      intro t ht
      have ht' : t ∈ frameFixedTags ++ pickleTagsCols cols := ht
      rcases List.mem_append.mp ht' with h1 | h1
      · exact frameFixedTags_allowed t h1
      · exact supported_tags_allowedCols cols h t h1
  | .inst _ _ _, h => nomatch h

theorem supported_tags_allowedList : ∀ xs, supportedList xs = true →
    ∀ t ∈ pickleTagsList xs, isAllowed t = true
  | [], _ => by intro t ht; exact absurd ht (List.not_mem_nil t)
  | v :: vs, h => by
      have h' : (SupportedValue v && supportedList vs) = true := h
      simp only [Bool.and_eq_true] at h'
      intro t ht
      have ht' : t ∈ pickleTags v ++ pickleTagsList vs := ht
      rcases List.mem_append.mp ht' with h1 | h1
      · exact supported_tags_allowed v h'.1 t h1
      · exact supported_tags_allowedList vs h'.2 t h1

theorem supported_tags_allowedKVs : ∀ kvs, supportedKVs kvs = true →
    ∀ t ∈ pickleTagsKVs kvs, isAllowed t = true
  | [], _ => by intro t ht; exact absurd ht (List.not_mem_nil t)
  | (k, v) :: kvs, h => by
      have h' : ((isStrVal k && SupportedValue v) && supportedKVs kvs) = true := h
      simp only [Bool.and_eq_true] at h'
      intro t ht
      have ht' : t ∈ pickleTags k ++ pickleTags v ++ pickleTagsKVs kvs := ht
      rw [pickleTags_of_isStr k h'.1.1, List.nil_append] at ht'
      rcases List.mem_append.mp ht' with h1 | h1
      · exact supported_tags_allowed v h'.1.2 t h1
      · exact supported_tags_allowedKVs kvs h'.2 t h1

theorem supported_tags_allowedCols : ∀ cols, supportedCols cols = true →
    ∀ t ∈ pickleTagsCols cols, isAllowed t = true
  | [], _ => by intro t ht; exact absurd ht (List.not_mem_nil t)
  | (label, dtype, cells) :: cols, h => by
      have h' : (((isStrVal label && !(dtype = .object_)) && supportedList cells) && supportedCols cols) = true := h
      simp only [Bool.and_eq_true] at h'
      have hd : ¬(dtype = .object_) := by simpa using h'.1.1.2
      intro t ht
      have ht' : t ∈ pickleTags label ++
          (if dtype = .object_ then pickleTagsList cells else []) ++ pickleTagsCols cols := ht
      rw [pickleTags_of_isStr label h'.1.1.1, List.nil_append, if_neg hd, List.nil_append] at ht'
      exact supported_tags_allowedCols cols h'.2 t ht'

end

theorem runSafeFindClass_ok : ∀ ts, (∀ t ∈ ts, isAllowed t = true) →
    runSafeFindClass ts = .ok ()
  | [], _ => rfl
  | t :: ts, h => by
      have h1 : isAllowed (t.1, t.2) = true := by
        rw [Prod.mk.eta]; exact h t (List.mem_cons_self t ts)
      show (match SafeLoader.find_class t.1 t.2 with
            | .error e => Except.error e
            | .ok _ => runSafeFindClass ts) = .ok ()
      rw [SafeLoader.find_class, if_pos h1]
      exact runSafeFindClass_ok ts (fun t' ht' => h t' (List.mem_cons_of_mem t ht'))

theorem runSafeFindClass_blocked : ∀ ts m n, firstBlocked ts = some (m, n) →
    runSafeFindClass ts = .error (unsafeTypeError m n)
  | [], m, n, h => by simp [firstBlocked] at h
  | t :: ts, m, n, h => by
      obtain ⟨tm, tn⟩ := t
      rw [firstBlocked] at h
      by_cases ha : isAllowed (tm, tn) = true
      · rw [List.find?_cons_of_neg _ (by simp [ha])] at h
        show (match SafeLoader.find_class tm tn with
              | .error e => Except.error e
              | .ok _ => runSafeFindClass ts) = .error (unsafeTypeError m n)
        rw [SafeLoader.find_class, if_pos ha]
        exact runSafeFindClass_blocked ts m n h
      · rw [List.find?_cons_of_pos _ (by simp [ha])] at h
        have h2 : tm = m ∧ tn = n := by simpa using h
        show (match SafeLoader.find_class tm tn with
              | .error e => Except.error e
              | .ok _ => runSafeFindClass ts) = .error (unsafeTypeError m n)
        rw [SafeLoader.find_class, if_neg ha, h2.1, h2.2]

theorem runUnsafeFindClass_spec : ∀ ts, ∀ c ∈ runUnsafeFindClass ts,
    ∃ m n, (m, n) ∈ ts ∧ isAllowed (m, n) = false ∧ c = cautionMsg m n
  | [] => by intro c hc; exact absurd hc (List.not_mem_nil c)
  | t :: ts => by
      intro c hc
      have hc' : c ∈ (if isAllowed (t.1, t.2) then [] else [cautionMsg t.1 t.2]) ++
          runUnsafeFindClass ts := hc
      rcases List.mem_append.mp hc' with h1 | h1
      · by_cases ha : isAllowed (t.1, t.2) = true
        · rw [if_pos ha] at h1
          exact absurd h1 (List.not_mem_nil c)
        · rw [if_neg (by rw [Bool.eq_false_iff.mpr ha]; exact Bool.false_ne_true)] at h1
          refine ⟨t.1, t.2, ?_, Bool.eq_false_iff.mpr ha, by simpa using h1⟩
          rw [Prod.mk.eta]; exact List.mem_cons_self t ts
      · obtain ⟨m, n, hmem, hal, hmsg⟩ := runUnsafeFindClass_spec ts c h1
        exact ⟨m, n, List.mem_cons_of_mem t hmem, hal, hmsg⟩

/-! ## Regex facts used for C7 -/

theorem reFullMatch_mono_first (f1 f2 rest : Char → Bool)
    (hf : ∀ c, f1 c = true → f2 c = true) (s : String)
    (h : reFullMatch f1 rest s = true) : reFullMatch f2 rest s = true := by
  rw [reFullMatch] at h ⊢
  cases hs : stripTrailingNewline s.data with
  | nil =>
      rw [hs] at h
      exact nomatch h
  | cons c cs =>
      rw [hs] at h
      have h' : (f1 c && cs.all rest) = true := h
      show (f2 c && cs.all rest) = true
      simp only [Bool.and_eq_true] at h' ⊢
      exact ⟨hf c h'.1, h'.2⟩

theorem mem_stripTrailingNewline (cs : List Char) (c : Char)
    (hmem : c ∈ cs) (hnl : c ≠ '\n') : c ∈ stripTrailingNewline cs := by
  rw [stripTrailingNewline]
  split
  · next hlast =>
    have hne : cs ≠ [] := by
      intro hnil; rw [hnil] at hlast; exact absurd hlast (by simp)
    have hsplit : cs.dropLast ++ [cs.getLast hne] = cs := List.dropLast_append_getLast hne
    rw [← hsplit] at hmem
    rcases List.mem_append.mp hmem with h1 | h1
    · exact h1
    · exfalso
      apply hnl
      have h2 : c = cs.getLast hne := by simpa using h1
      have h3 : cs.getLast? = some (cs.getLast hne) := List.getLast?_eq_getLast cs hne
      rw [hlast] at h3
      rw [h2]
      exact (Option.some.inj h3).symm
  · exact hmem

theorem reFullMatch_false_of_bad_char (first rest : Char → Bool) (s : String) (c : Char)
    (hmem : c ∈ s.data) (hnl : c ≠ '\n') (hf : first c = false) (hr : rest c = false) :
    reFullMatch first rest s = false := by
  rw [reFullMatch]
  have hmem' : c ∈ stripTrailingNewline s.data := mem_stripTrailingNewline s.data c hmem hnl
  cases hs : stripTrailingNewline s.data with
  | nil => rfl
  | cons x xs =>
      rw [hs] at hmem'
      show (first x && xs.all rest) = false
      rcases List.mem_cons.mp hmem' with h1 | h1
      · rw [h1] at hf
        rw [hf]
        rfl
      · have hall : xs.all rest = false := by
          by_cases hb : xs.all rest = true
          · have := List.all_eq_true.mp hb c h1
            rw [hr] at this
            exact absurd this (by simp)
          · exact Bool.eq_false_iff.mpr hb
        rw [hall]
        simp

theorem reFullMatch_false_of_first (first rest : Char → Bool) (s : String) (c : Char)
    (hhead : s.data.head? = some c) (hf : first c = false) :
    reFullMatch first rest s = false := by
  rw [reFullMatch]
  cases hd : s.data with
  | nil => rw [hd] at hhead; exact absurd hhead (by simp)
  | cons x xs =>
      have hx : x = c := by rw [hd] at hhead; simpa using hhead
      rw [stripTrailingNewline]
      cases xs with
      | nil =>
          by_cases hnl : x = '\n'
          · rw [if_pos (by rw [hnl]; rfl)]
            rfl
          · rw [if_neg (by simp [hnl])]
            show (first x && List.all [] rest) = false
            rw [hx, hf]
            rfl
      | cons y ys =>
          by_cases hnl : (x :: y :: ys).getLast? = some '\n'
          · rw [if_pos hnl]
            have hdl : (x :: y :: ys).dropLast = x :: (y :: ys).dropLast := rfl
            rw [hdl]
            show (first x && ((y :: ys).dropLast).all rest) = false
            rw [hx, hf]
            rfl
          · rw [if_neg hnl]
            show (first x && (y :: ys).all rest) = false
            rw [hx, hf]
            rfl

/-- The characters the spec singles out as forbidden inside keys: comma,
space, double quote, single quote (the latter written via its code point). -/
def badIdentChar (c : Char) : Bool :=
  c = ',' || c = ' ' || c = '"' || c = Char.ofNat 39

theorem badIdentChar_not_first (c : Char) (h : badIdentChar c = true) :
    (isAsciiLetter c || c = '_') = false := by
  rw [badIdentChar] at h
  rcases Bool.or_eq_true_iff.mp h with h1 | h1
  · rcases Bool.or_eq_true_iff.mp h1 with h2 | h2
    · rcases Bool.or_eq_true_iff.mp h2 with h3 | h3
      · have : c = ',' := by simpa using h3
        subst this; decide
      · have : c = ' ' := by simpa using h3
        subst this; decide
    · have : c = '"' := by simpa using h2
      subst this; decide
  · have : c = Char.ofNat 39 := by simpa using h1
    subst this; decide

theorem badIdentChar_not_rest (c : Char) (h : badIdentChar c = true) :
    isIdentCont c = false := by
  rw [badIdentChar] at h
  rcases Bool.or_eq_true_iff.mp h with h1 | h1
  · rcases Bool.or_eq_true_iff.mp h1 with h2 | h2
    · rcases Bool.or_eq_true_iff.mp h2 with h3 | h3
      · have : c = ',' := by simpa using h3
        subst this; decide
      · have : c = ' ' := by simpa using h3
        subst this; decide
    · have : c = '"' := by simpa using h2
      subst this; decide
  · have : c = Char.ofNat 39 := by simpa using h1
    subst this; decide

theorem badIdentChar_not_newline (c : Char) (h : badIdentChar c = true) : c ≠ '\n' := by
  intro hnl
  subst hnl
  rw [badIdentChar] at h
  exact absurd h (by decide)

theorem uint32_le_toNat (a b : UInt32) : a ≤ b ↔ a.toBitVec.toNat ≤ b.toBitVec.toNat := by
  rw [UInt32.le_def, BitVec.le_def]

theorem digit_not_letter (c : Char) (h : c.isDigit = true) : isAsciiLetter c = false := by
  rw [Char.isDigit] at h
  simp only [Bool.and_eq_true, decide_eq_true_eq] at h
  have e57 : ((57 : UInt32).toBitVec).toNat = 57 := rfl
  have h57 : c.val.toBitVec.toNat ≤ 57 := by
    have h0 := (uint32_le_toNat c.val 57).mp h.2
    rw [e57] at h0
    exact h0
  rw [isAsciiLetter]
  have h1 : decide ('a' ≤ c) = false := decide_eq_false (fun hc => by
    have h0 := (uint32_le_toNat ('a').val c.val).mp (Char.le_def.mp hc)
    have ea : (('a').val.toBitVec).toNat = 97 := rfl
    rw [ea] at h0
    omega)
  have h2 : decide ('A' ≤ c) = false := decide_eq_false (fun hc => by
    have h0 := (uint32_le_toNat ('A').val c.val).mp (Char.le_def.mp hc)
    have ea : (('A').val.toBitVec).toNat = 65 := rfl
    rw [ea] at h0
    omega)
  rw [h1, h2]
  rfl

/-! ## String-message facts used for C5 -/

theorem append_ne_append_of_head_ne (p q a b : String) (c₁ c₂ : Char)
    (hp : p.data.head? = some c₁) (hq : q.data.head? = some c₂) (hne : c₁ ≠ c₂) :
    p ++ a ≠ q ++ b := by
  intro h
  have hd : (p ++ a).data = (q ++ b).data := congrArg String.data h
  rw [String.data_append, String.data_append] at hd
  cases hpd : p.data with
  | nil => rw [hpd] at hp; exact absurd hp (by simp)
  | cons x xs =>
      cases hqd : q.data with
      | nil => rw [hqd] at hq; exact absurd hq (by simp)
      | cons y ys =>
          rw [hpd] at hp
          rw [hqd] at hq
          rw [hpd, hqd] at hd
          apply hne
          have hx : x = c₁ := by simpa using hp
          have hy : y = c₂ := by simpa using hq
          rw [← hx, ← hy]
          exact (List.cons.inj hd).1

/-- Projection of the exception class out of a decode result. -/
def errClass : Except PyException Dct → Option PyExcClass
  | .error e => some e.cls
  | .ok _ => Option.none

/-! ## Validation-order fact used for C6 -/

theorem validateBundle_of_bad : ∀ (dct : Dct) (k : String) (v : PValue),
    (k, v) ∈ dct → (savedictNameOK k = false ∨ cansave v = false) →
    ∃ k' v' e, (k', v') ∈ dct ∧ validateBundle dct = some e ∧
      e.cls = .valueError ∧
      ((savedictNameOK k' = false ∧ e.msg = "Bad variable name: " ++ k') ∨
       (cansave v' = false ∧ e.msg = "Cannot save variable: " ++ k'))
  | [], k, v, hmem, _ => absurd hmem (List.not_mem_nil _)
  | (k0, v0) :: rest, k, v, hmem, hbad => by
      by_cases h1 : savedictNameOK k0 = true
      · by_cases h2 : cansave v0 = true
        · have hmem' : (k, v) ∈ rest := by
            rcases List.mem_cons.mp hmem with he | he
            · exfalso
              have hk : k = k0 := congrArg Prod.fst he
              have hv : v = v0 := congrArg Prod.snd he
              rcases hbad with hb | hb
              · rw [hk, h1] at hb
                exact absurd hb (by simp)
              · rw [hv, h2] at hb
                exact absurd hb (by simp)
            · exact he
          obtain ⟨k', v', e, hm, hvb, hc, hshape⟩ :=
            validateBundle_of_bad rest k v hmem' hbad
          refine ⟨k', v', e, List.mem_cons_of_mem _ hm, ?_, hc, hshape⟩
          show (if savedictNameOK k0 = false then
                  some (⟨.valueError, "Bad variable name: " ++ k0⟩ : PyException)
                else if cansave v0 = false then
                  some (⟨.valueError, "Cannot save variable: " ++ k0⟩ : PyException)
                else validateBundle rest) = some e
          rw [if_neg (by simp [h1]), if_neg (by simp [h2]), hvb]
        · refine ⟨k0, v0, ⟨.valueError, "Cannot save variable: " ++ k0⟩,
            List.mem_cons_self _ _, ?_, rfl,
            Or.inr ⟨Bool.eq_false_iff.mpr h2, rfl⟩⟩
          show (if savedictNameOK k0 = false then
                  some (⟨.valueError, "Bad variable name: " ++ k0⟩ : PyException)
                else if cansave v0 = false then
                  some (⟨.valueError, "Cannot save variable: " ++ k0⟩ : PyException)
                else validateBundle rest) = _
          rw [if_neg (by simp [h1]), if_pos (Bool.eq_false_iff.mpr h2)]
      · refine ⟨k0, v0, ⟨.valueError, "Bad variable name: " ++ k0⟩,
          List.mem_cons_self _ _, ?_, rfl,
          Or.inl ⟨Bool.eq_false_iff.mpr h1, rfl⟩⟩
        show (if savedictNameOK k0 = false then
                some (⟨.valueError, "Bad variable name: " ++ k0⟩ : PyException)
              else if cansave v0 = false then
                some (⟨.valueError, "Cannot save variable: " ++ k0⟩ : PyException)
              else validateBundle rest) = _
        rw [if_pos (Bool.eq_false_iff.mpr h1)]

/-! ## Concrete values used by several claims -/

/-- An instance of a user-defined class absent from the allow-list. -/
def evilInst : PValue := PValue.inst ⟨"__main__", "Evil"⟩ [] []

/-- A DataFrame with one object-dtype column whose single cell is `evilInst`. -/
def evilFrame : PValue :=
  PValue.frame [(.str "c", .object_, [evilInst])]

/-- The bundle holding `evilFrame` under the key `t`. -/
def evilFrameDct : Dct := [("t", evilFrame)]

/-! ## Claim theorems -/

/-- C1: for every bundle whose pickle (produced even by the unchecked
`savedict_ignorewhitelist` entry point) contains a type tag absent from the
allow-list, gated decoding fails with the `UnsafeTypeError` realization
(`pickle.UnpicklingError` naming the rejected module and type name), raised at
the first blocked tag, and no dict is ever returned — including when the
disallowed tag sits nested inside a table cell or array element, since
`bundleTags` collects tags from the whole object graph. -/
theorem c1_gated_reject_disallowed_tag (dct : Dct) (m n : String)
    (h : firstBlocked (bundleTags dct) = some (m, n)) :
    savedict_ignorewhitelist dct Option.none = (some (Blob.fromDict dct), Option.none) ∧
    SafeLoader.load (Blob.fromDict dct) = Except.error (unsafeTypeError m n) ∧
    ∀ d, SafeLoader.load (Blob.fromDict dct) ≠ Except.ok d := by
  have h2 : SafeLoader.load (Blob.fromDict dct) = Except.error (unsafeTypeError m n) := by
    show (match runSafeFindClass (bundleTags dct) with
          | Except.error e => Except.error e
          | Except.ok _ => Except.ok dct) = Except.error (unsafeTypeError m n)
    rw [runSafeFindClass_blocked (bundleTags dct) m n h]
  refine ⟨rfl, h2, ?_⟩
  intro d hd
  rw [h2] at hd
  exact Except.noConfusion hd

/-- Witness for C1 at a disallowed type nested inside a table cell. -/
theorem c1_gated_reject_disallowed_tag_witness :
    SafeLoader.load (Blob.fromDict evilFrameDct) =
      Except.error (unsafeTypeError "__main__" "Evil") :=
  (c1_gated_reject_disallowed_tag evilFrameDct "__main__" "Evil" (by decide)).2.1

/-- C2: for every value in the Supported Value universe of the spec, encoding
the one-entry bundle under the key `x` succeeds, gated decoding returns the
very same bundle with no caution emitted, and the named-tuple projection's
field `x` (attribute access, as the spec's `project(...).x` denotes) equals the
original value — structural equality, which for float payloads carried as bit
patterns is bitwise equality. -/
theorem c2_roundtrip_supported_value (v : PValue) (h : SupportedValue v = true) :
    savedict [("x", v)] Option.none = (some (Blob.fromDict [("x", v)]), Option.none) ∧
    load (Blob.fromDict [("x", v)]) false = ([], Except.ok ⟨["x"], [v]⟩) ∧
    PTuple.attr ⟨["x"], [v]⟩ "x" = Except.ok v := by
  have hc : cansave v = true := supported_cansave v h
  have htags : ∀ t ∈ pickleTags v, isAllowed t = true := supported_tags_allowed v h
  have hvb : validateBundle [("x", v)] = Option.none := by
    rw [validateBundle, if_neg (by decide), if_neg (by simp [hc])]
    rfl
  have hrun : runSafeFindClass (bundleTags [("x", v)]) = Except.ok () := by
    apply runSafeFindClass_ok
    intro t ht
    have ht' : t ∈ pickleTags v ++ [] := ht
    rw [List.append_nil] at ht'
    exact htags t ht'
  have hsafe : SafeLoader.load (Blob.fromDict [("x", v)]) = Except.ok [("x", v)] := by
    show (match runSafeFindClass (bundleTags [("x", v)]) with
          | Except.error e => Except.error e
          | Except.ok _ => Except.ok [("x", v)]) = Except.ok [("x", v)]
    rw [hrun]
  have hmk : _maketuple [("x", v)] = Except.ok ⟨["x"], [v]⟩ := rfl
  refine ⟨?_, ?_, rfl⟩
  · rw [savedict, hvb]
  · show ([], match SafeLoader.load (Blob.fromDict [("x", v)]) with
          | Except.error e => Except.error e
          | Except.ok dct => _maketuple dct) = ([], Except.ok ⟨["x"], [v]⟩)
    rw [hsafe]
    show ([], _maketuple [("x", v)]) = ([], Except.ok ⟨["x"], [v]⟩)
    rw [hmk]

/-- Witness for C2 at the value 5. -/
theorem c2_roundtrip_supported_value_witness :
    PTuple.attr ⟨["x"], [PValue.int 5]⟩ "x" = Except.ok (PValue.int 5) :=
  (c2_roundtrip_supported_value (PValue.int 5) (by decide)).2.2

/-- C3: at the failing input — a DataFrame with a single object-dtype column
holding an instance of a non-saveable class — `cansave` returns true, because
the source iterates `for v1 in v` over the DataFrame, which in pandas yields
the column labels, so only the label string `c` is checked; the Supported
Value universe of the spec excludes the frame; and gated decoding of its
unchecked pickle fails, so the classifier admits a value whose own save
rejects nothing and whose load then fails. -/
theorem c3_cansave_admits_object_frame :
    cansave evilFrame = true ∧
    SupportedValue evilFrame = false ∧
    savedict [("t", evilFrame)] Option.none =
      (some (Blob.fromDict [("t", evilFrame)]), Option.none) ∧
    SafeLoader.load (Blob.fromDict [("t", evilFrame)]) =
      Except.error (unsafeTypeError "__main__" "Evil") :=
  ⟨rfl, rfl, rfl, rfl⟩

/-- C4: at the failing input — the record decoded from the bundle mapping `x`
to 5 — name-based access `r["x"]` returns Python `None` rather than the stored
value, because the string branch of `Tuple.__getitem__` rebinds `k` to the
field index and then falls off the end of the function; unknown names do raise
`KeyError` and positional overflow does raise `IndexError`, but the stored
value is not returned. -/
theorem c4_name_access_returns_none :
    _maketuple [("x", PValue.int 5)] = Except.ok ⟨["x"], [PValue.int 5]⟩ ∧
    PTuple.getitem ⟨["x"], [PValue.int 5]⟩ (.str "x") = Except.ok PValue.none ∧
    PTuple.getitem ⟨["x"], [PValue.int 5]⟩ (.str "x") ≠ Except.ok (PValue.int 5) ∧
    PTuple.getitem ⟨["x"], [PValue.int 5]⟩ (.str "y") = Except.error ⟨.keyError, "y"⟩ ∧
    PTuple.getitem ⟨["x"], [PValue.int 5]⟩ (.int 3) =
      Except.error ⟨.indexError, "tuple index out of range"⟩ :=
  ⟨rfl, rfl, fun hc => PValue.noConfusion (Except.ok.inj hc), rfl, rfl⟩

/-- C5 counterexample: the error raised for an allow-list rejection and the
error raised for structurally malformed bytes have the same Python exception
class, `pickle.UnpicklingError`, so the two failure kinds are not distinct
errors and a caller cannot distinguish them by the exception class alone. -/
theorem c5_same_exception_class :
    errClass (SafeLoader.load (Blob.malformed "garbage")) =
      some PyExcClass.unpicklingError ∧
    errClass (SafeLoader.load (Blob.fromDict [("evil", evilInst)])) =
      some PyExcClass.unpicklingError :=
  ⟨rfl, rfl⟩

/-- C5 amended: both failure kinds surface as `pickle.UnpicklingError`; they
are distinguishable only by the message text — a gate rejection carries the
`Not allowed` message naming the tag, corruption carries the unpickler's
`invalid load key` message, and the two messages are never equal. -/
theorem c5_amended_distinguish_by_message (dct : Dct) (m n junk : String)
    (h : firstBlocked (bundleTags dct) = some (m, n)) :
    SafeLoader.load (Blob.fromDict dct) =
      Except.error ⟨.unpicklingError, notAllowedMsg m n⟩ ∧
    SafeLoader.load (Blob.malformed junk) =
      Except.error ⟨.unpicklingError, corruptMsg junk⟩ ∧
    notAllowedMsg m n ≠ corruptMsg junk := by
  have h1 : SafeLoader.load (Blob.fromDict dct) = Except.error (unsafeTypeError m n) := by
    show (match runSafeFindClass (bundleTags dct) with
          | Except.error e => Except.error e
          | Except.ok _ => Except.ok dct) = Except.error (unsafeTypeError m n)
    rw [runSafeFindClass_blocked (bundleTags dct) m n h]
  refine ⟨h1, rfl, ?_⟩
  rw [notAllowedMsg, corruptMsg]
  exact append_ne_append_of_head_ne "Not allowed “" "invalid load key, '" _ _ 'N' 'i'
    rfl rfl (by decide)

/-- Witness for C5 amended at the `evilInst` bundle and junk bytes. -/
theorem c5_amended_distinguish_by_message_witness :
    SafeLoader.load (Blob.malformed "xyz") =
      Except.error ⟨.unpicklingError, corruptMsg "xyz"⟩ :=
  (c5_amended_distinguish_by_message [("evil", evilInst)] "__main__" "Evil" "xyz"
    (by decide)).2.1

/-- C6: whenever some entry of the bundle has a key failing the identifier
check or a value failing `cansave`, `savedict` raises `ValueError` whose
message names an actually-offending key, and the target file is left exactly
as it was: validation runs to completion before `open(filename, 'wb')`, so no
blob is created or partially written. -/
theorem c6_validation_before_write (dct : Dct) (file : Option Blob)
    (k : String) (v : PValue) (hmem : (k, v) ∈ dct)
    (hbad : savedictNameOK k = false ∨ cansave v = false) :
    ∃ k' v' e, (k', v') ∈ dct ∧
      savedict dct file = (file, some e) ∧ e.cls = .valueError ∧
      ((savedictNameOK k' = false ∧ e.msg = "Bad variable name: " ++ k') ∨
       (cansave v' = false ∧ e.msg = "Cannot save variable: " ++ k')) := by
  obtain ⟨k', v', e, hm, hvb, hc, hshape⟩ := validateBundle_of_bad dct k v hmem hbad
  refine ⟨k', v', e, hm, ?_, hc, hshape⟩
  rw [savedict, hvb]

/-- Witness for C6 at a bundle with one valid and one invalid key. -/
theorem c6_validation_before_write_witness :
    ∃ k' v' e, (k', v') ∈ [("ok", PValue.int 1), ("bad name", PValue.int 2)] ∧
      savedict [("ok", PValue.int 1), ("bad name", PValue.int 2)] Option.none =
        (Option.none, some e) ∧ e.cls = .valueError ∧
      ((savedictNameOK k' = false ∧ e.msg = "Bad variable name: " ++ k') ∨
       (cansave v' = false ∧ e.msg = "Cannot save variable: " ++ k')) :=
  c6_validation_before_write [("ok", PValue.int 1), ("bad name", PValue.int 2)]
    Option.none "bad name" (PValue.int 2)
    (List.mem_cons_of_mem _ (List.mem_cons_self _ _))
    (Or.inl (by decide))

/-- C7 counterexample: the key `_x` matches the claimed pattern
`^[A-Za-z_][A-Za-z0-9_]*$` and `savedict` accepts it, yet the `save` and
`Saver.save` entry points reject it with `ValueError`, because they compile
the pattern `^[a-zA-Z][a-zA-Z0-9_]*$` whose first character class has no
underscore — refuting the claimed acceptance rule for those entry points. -/
theorem c7_counterexample_underscore :
    savedictNameOK "_x" = true ∧
    (savedict [("_x", PValue.int 1)] Option.none).2 = Option.none ∧
    save ["_x"] [PValue.int 1] Option.none =
      (Option.none, some ⟨.valueError, "Bad variable name: _x"⟩) ∧
    Saver.saveVars (Saver.enter (Saver.init "f")) ["_x"] [PValue.int 1] =
      Except.error ⟨.valueError, "Bad variable name: _x"⟩ :=
  ⟨by decide, rfl, rfl, rfl⟩

/-- `save` and `Saver.save` accept at most what `savedict` accepts. -/
theorem saveNameOK_imp (k : String) (h : saveNameOK k = true) :
    savedictNameOK k = true :=
  reFullMatch_mono_first isAsciiLetter (fun c => isAsciiLetter c || c = '_')
    isIdentCont (fun c hc => by
      show (isAsciiLetter c || decide (c = '_')) = true
      rw [hc]
      rfl) k h

/-- C7 amended: `savedict` accepts a key exactly when it matches
`^[a-zA-Z_][a-zA-Z0-9_]*$` (Python `re.match` semantics); `save` and
`Saver.save` accept exactly the keys matching `^[a-zA-Z][a-zA-Z0-9_]*$`, so a
key starting with an underscore is accepted by `savedict` but rejected by
`save`/`Saver.save`; every key accepted by `save` is acceptable to `savedict`;
and keys containing a comma, space, or quote, or starting with a digit, are
rejected by every entry point. -/
theorem c7_amended_identifier_rules (k : String) :
    ((savedict [(k, PValue.none)] Option.none).2 = Option.none ↔
      savedictNameOK k = true) ∧
    ((save [k] [PValue.none] Option.none).2 = Option.none ↔ saveNameOK k = true) ∧
    (saverCallOK (Saver.saveVars (Saver.enter (Saver.init "f")) [k] [PValue.none]) = true ↔
      saveNameOK k = true) ∧
    (saveNameOK k = true → savedictNameOK k = true) ∧
    (∀ c, c ∈ k.data → badIdentChar c = true →
      savedictNameOK k = false ∧ saveNameOK k = false) ∧
    (∀ c, k.data.head? = some c → c.isDigit = true →
      savedictNameOK k = false ∧ saveNameOK k = false) := by
  refine ⟨?_, ?_, ?_, saveNameOK_imp k, ?_, ?_⟩
  · by_cases hk : savedictNameOK k = true
    · have hvb : validateBundle [(k, PValue.none)] = Option.none := by
        rw [validateBundle, if_neg (by simp [hk]), if_neg (by decide)]
        rfl
      constructor
      · intro _; exact hk
      · intro _
        rw [savedict, hvb]
    · have hvb : validateBundle [(k, PValue.none)] =
          some ⟨.valueError, "Bad variable name: " ++ k⟩ := by
        rw [validateBundle, if_pos (Bool.eq_false_iff.mpr hk)]
      constructor
      · intro hok
        rw [savedict, hvb] at hok
        exact absurd hok (by simp)
      · intro hk'; exact absurd hk' hk
  · by_cases hk : saveNameOK k = true
    · have hva : validateSaveArgs [k] [PValue.none] = Option.none := by
        rw [validateSaveArgs, if_neg (by simp [hk]), if_neg (by decide)]
        rfl
      have hvb : validateBundle [(k, PValue.none)] = Option.none := by
        rw [validateBundle, if_neg (by simp [saveNameOK_imp k hk]), if_neg (by decide)]
        rfl
      constructor
      · intro _; exact hk
      · intro _
        rw [save, if_neg (fun hne => hne rfl), hva]
        show (savedict (dictFromPairs [(k, PValue.none)]) Option.none).2 = Option.none
        show (savedict [(k, PValue.none)] Option.none).2 = Option.none
        rw [savedict, hvb]
    · have hva : validateSaveArgs [k] [PValue.none] =
          some ⟨.valueError, "Bad variable name: " ++ k⟩ := by
        rw [validateSaveArgs, if_pos (Bool.eq_false_iff.mpr hk)]
      constructor
      · intro hok
        rw [save, if_neg (fun hne => hne rfl), hva] at hok
        exact absurd hok (by simp)
      · intro hk'; exact absurd hk' hk
  · by_cases hk : saveNameOK k = true
    · have hva : validateSaveArgs [k] [PValue.none] = Option.none := by
        rw [validateSaveArgs, if_neg (by simp [hk]), if_neg (by decide)]
        rfl
      constructor
      · intro _; exact hk
      · intro _
        rw [Saver.saveVars, if_neg (by decide), if_neg (fun hne => hne rfl), hva]
        rfl
    · have hva : validateSaveArgs [k] [PValue.none] =
          some ⟨.valueError, "Bad variable name: " ++ k⟩ := by
        rw [validateSaveArgs, if_pos (Bool.eq_false_iff.mpr hk)]
      constructor
      · intro hok
        rw [Saver.saveVars, if_neg (by decide), if_neg (fun hne => hne rfl), hva] at hok
        exact absurd hok (by simp [saverCallOK])
      · intro hk'; exact absurd hk' hk
  · intro c hmem hbadc
    have hnl := badIdentChar_not_newline c hbadc
    have hfirst := badIdentChar_not_first c hbadc
    have hrest := badIdentChar_not_rest c hbadc
    have hfirst2 : isAsciiLetter c = false := (Bool.or_eq_false_iff.mp hfirst).1
    exact ⟨reFullMatch_false_of_bad_char _ _ k c hmem hnl hfirst hrest,
           reFullMatch_false_of_bad_char _ _ k c hmem hnl hfirst2 hrest⟩
  · intro c hhead hdig
    have h1 : isAsciiLetter c = false := digit_not_letter c hdig
    have h2 : decide (c = '_') = false := decide_eq_false (fun he => by
      rw [he] at hdig
      exact absurd hdig (by decide))
    have h3 : (isAsciiLetter c || c = '_') = false := by
      rw [h1, h2]
      rfl
    exact ⟨reFullMatch_false_of_first _ _ k c hhead h3,
           reFullMatch_false_of_first _ _ k c hhead h1⟩

/-- Witness for C7 amended at the key `_x`. -/
theorem c7_amended_identifier_rules_witness :
    (savedict [("_x", PValue.none)] Option.none).2 = Option.none :=
  ((c7_amended_identifier_rules "_x").1).mpr (by decide)

/-- C8: trusted decoding of any well-formed blob consults no gate — it returns
the reconstructed bundle for every tag multiset, with the caution lines being
exactly reports about tags absent from the allow-list; reconstruction
completes rather than raising. -/
theorem c8_trusted_bypasses_allowlist (dct : Dct) :
    _load (Blob.fromDict dct) true =
      (runUnsafeFindClass (bundleTags dct), Except.ok dct) ∧
    ∀ c ∈ runUnsafeFindClass (bundleTags dct),
      ∃ m n, (m, n) ∈ bundleTags dct ∧ isAllowed (m, n) = false ∧ c = cautionMsg m n :=
  ⟨rfl, runUnsafeFindClass_spec (bundleTags dct)⟩

/-- Witness for C8 at a bundle holding a single off-list instance. -/
theorem c8_trusted_bypasses_allowlist_witness :
    _load (Blob.fromDict [("evil", evilInst)]) true =
      ([cautionMsg "__main__" "Evil"], Except.ok [("evil", evilInst)]) := by
  rw [(c8_trusted_bypasses_allowlist [("evil", evilInst)]).1]
  rfl

/-- C9: an instance of any class other than the exactly-checked types — in
particular of a strict subclass of `dict`, `list`, or `int` — is rejected by
`cansave` even when its contents are all saveable, because the source compares
`type(v)` for identity against each supported type. -/
theorem c9_subclass_rejected (cls : PyClassRef) (bases : List PyClassRef)
    (state : List PValue)
    (hbase : (⟨"builtins", "dict"⟩ : PyClassRef) ∈ bases ∨
             (⟨"builtins", "list"⟩ : PyClassRef) ∈ bases ∨
             (⟨"builtins", "int"⟩ : PyClassRef) ∈ bases)
    (hstate : cansaveList state = true) :
    cansave (PValue.inst cls bases state) = false :=
  rfl

/-- Witness for C9 at a dict subclass holding saveable contents. -/
theorem c9_subclass_rejected_witness :
    cansave (PValue.inst ⟨"__main__", "MyDict"⟩ [⟨"builtins", "dict"⟩]
      [PValue.str "a", PValue.int 1]) = false :=
  c9_subclass_rejected ⟨"__main__", "MyDict"⟩ [⟨"builtins", "dict"⟩]
    [PValue.str "a", PValue.int 1] (Or.inl (by decide)) (by decide)

/-- C10: when the with-block body raised, `Saver.__exit__` behaves exactly as
on normal exit (it ignores the exception information): it validates and writes
the accumulated bundle through `savedict`, returns Python `None` so the
exception is not suppressed, and clears `opened`, so a second exit raises
`ValueError("Not opened")`. -/
theorem c10_exit_after_exception (s : SaverState) (file : Option Blob)
    (exc : PyException) (hopen : s.opened = true) :
    Saver.exit s (some exc) file = Saver.exit s Option.none file ∧
    ∀ s' file' sup, Saver.exit s (some exc) file = Except.ok (s', file', sup) →
      sup = false ∧ s'.opened = false ∧ s'.dct = s.dct ∧
      file' = (savedict s.dct file).1 ∧ (savedict s.dct file).2 = Option.none ∧
      ∀ exc2 file2, Saver.exit s' exc2 file2 =
        Except.error ⟨.valueError, "Not opened"⟩ := by
  refine ⟨rfl, ?_⟩
  intro s' file' sup hok
  rw [Saver.exit, if_neg (by simp [hopen])] at hok
  cases hsv : savedict s.dct file with
  | mk f' e? =>
    rw [hsv] at hok
    cases e? with
    | some e =>
        have hok' : (Except.error e : Except PyException (SaverState × Option Blob × Bool)) =
            Except.ok (s', file', sup) := hok
        exact Except.noConfusion hok'
    | none =>
        have hok' : (Except.ok ({ s with opened := false }, f', false) :
            Except PyException (SaverState × Option Blob × Bool)) =
            Except.ok (s', file', sup) := hok
        have h1 := Except.ok.inj hok'
        have hs' : s' = { s with opened := false } := (congrArg Prod.fst h1).symm
        have hf' : file' = f' := (congrArg (fun p => p.2.1) h1).symm
        have hsup : sup = false := (congrArg (fun p => p.2.2) h1).symm
        have hop : s'.opened = false := by rw [hs']
        refine ⟨hsup, hop, by rw [hs'], ?_, ?_, ?_⟩
        · exact hf'
        · rfl
        · intro exc2 file2
          rw [Saver.exit, if_pos hop]

/-- Witness for C10 at a freshly opened empty session. -/
theorem c10_exit_after_exception_witness :
    Saver.exit (Saver.enter (Saver.init "f")) (some ⟨.valueError, "boom"⟩) Option.none =
      Saver.exit (Saver.enter (Saver.init "f")) Option.none Option.none :=
  (c10_exit_after_exception (Saver.enter (Saver.init "f")) Option.none
    ⟨.valueError, "boom"⟩ rfl).1

end Ppersist

